import Mathlib

/-!
Shallow embedding of `src/app.js` (Express + Mongoose restaurant CRUD API
with JWT authentication), together with proofs about the behaviour of its
route handlers and middleware.

Conventions of the embedding:
* The MongoDB collections are modelled as Lean lists (`List User`,
  `List Restaurant`); the store-assigned `_id` is a `Nat` field.
* Each Express handler becomes a pure Lean function from its inputs and the
  current store contents to an HTTP response (and the new store contents
  when the handler writes).
* The `jsonwebtoken` library calls (`jwt.sign` with `expiresIn: '1h'`,
  `jwt.verify`) are modelled by their documented semantics: a token is a
  record of the payload claims plus `iat`/`exp` seconds and the signing
  secret standing in for the signature; verification checks the secret and
  that the current time is below `exp`.
* `bcrypt` is modelled abstractly: `hash` results and the `compare`
  predicate are parameters of the handlers that use them.
* MongoDB `$regex`/`$options: 'i'` filters are modelled by a matcher for
  the literal-and-dot fragment of the regex language (every character of
  the pattern matches itself case-insensitively, `.` matches any
  character, and the pattern may match anywhere in the field).
-/

set_option autoImplicit false

/-! ## Data model (Mongoose schemas, src/app.js lines 24-52) -/

/-- One entry of the `grades` array of the restaurant schema:
`{ date: Date, grade: String, score: Number }`.  Dates are modelled as
integers (milliseconds since epoch). -/
structure Grade where
  date : Int
  grade : Option String
  score : Option Int
  deriving DecidableEq, Repr

/-- The nested `address` subdocument of the restaurant schema. -/
structure Address where
  building : Option String
  street : Option String
  zipcode : Option String
  deriving DecidableEq, Repr

/-- A stored restaurant document.  All schema fields are optional
(Mongoose `String` fields without `required`); `id` is the store-assigned
`_id`. -/
structure Restaurant where
  id : Nat
  address : Option Address
  borough : Option String
  cuisine : Option String
  grades : Option (List Grade)
  name : Option String
  restaurant_id : Option String
  deriving DecidableEq, Repr

/-- A stored user document (`usersSchema`): unique required `email`,
required `password` holding the bcrypt hash; `id` is the store-assigned
`_id`. -/
structure User where
  id : Nat
  email : String
  password : String
  deriving DecidableEq, Repr

/-! ## Token service (jwt.sign / jwt.verify as used in src/app.js) -/

/-- The payload signed at login: `{ userId: user._id, email: user.email }`. -/
structure JwtClaims where
  userId : Nat
  email : String
  deriving DecidableEq, Repr

/-- A signed token: payload claims plus issued-at and expiry timestamps
(seconds), with the signing secret standing in for the signature. -/
structure Token where
  userId : Nat
  email : String
  iat : Nat
  exp : Nat
  sig : String
  deriving DecidableEq, Repr

/-- Verification failures of `jwt.verify`. -/
inductive JwtError where
  | invalidSignature
  | expired
  | malformed
  deriving DecidableEq, Repr

/-- `jwt.sign({userId, email}, secret, { expiresIn: '1h' })` at time `now`
(seconds): the expiry is exactly 3600 seconds after the issued-at time. -/
def issue (secret : String) (userId : Nat) (email : String) (now : Nat) : Token :=
  { userId := userId, email := email, iat := now, exp := now + 3600, sig := secret }

/-- `jwt.verify(token, secret)` at time `now`: rejects a wrong signature,
rejects a token whose expiry has been reached (`now ≥ exp`), and otherwise
returns the payload claims. -/
def verifyToken (secret : String) (t : Token) (now : Nat) : Except JwtError JwtClaims :=
  if t.sig ≠ secret then .error .invalidSignature
  else if t.exp ≤ now then .error .expired
  else .ok { userId := t.userId, email := t.email }

/-! ## HTTP responses -/

/-- JSON bodies produced by the handlers of src/app.js. -/
inductive ApiBody where
  | msg (s : String)
  | err (s : String)
  | errD (s details : String)
  | restaurants (rs : List Restaurant)
  | restaurant (r : Restaurant)
  | token (t : Token)
  deriving DecidableEq, Repr

/-- An HTTP response: status code plus JSON body. -/
structure ApiResp where
  status : Nat
  body : ApiBody
  deriving DecidableEq, Repr

/-! ## Auth middleware (`authenticateToken`, src/app.js lines 55-68) -/

/-- Outcome of the middleware: either an early rejection response, or the
request proceeds to the handler with the decoded claims attached as
`req.user`. -/
inductive AuthOutcome where
  | reject (r : ApiResp)
  | proceed (user : JwtClaims)
  deriving DecidableEq, Repr

/-- JavaScript `String.prototype.split(' ')` on the character list: cut at
every space character; consecutive spaces yield empty segments, and the
empty string yields one empty segment. -/
def splitSpace : List Char → List (List Char)
  | [] => [[]]
  | c :: cs =>
    if c = ' ' then [] :: splitSpace cs
    else
      match splitSpace cs with
      | [] => [[c]]
      | seg :: rest => (c :: seg) :: rest

/-- `req.headers['authorization'] && req.headers['authorization'].split(' ')[1]`:
the second space-separated segment of the header, if any.  A missing header
gives `none`; JavaScript `split(' ')` on a string without a space has no
index 1. -/
def extractToken (header : Option String) : Option String :=
  header.bind (fun h => ((splitSpace h.data).get? 1).map (fun cs => String.mk cs))

/-- The `authenticateToken` middleware.  `verifyTok` stands for
`jwt.verify(token, process.env.JWT_SECRET, cb)` on the extracted token
string.  A falsy token (absent, or the empty string) is rejected with
403 "Token is required"; a token that fails verification with
403 "Invalid token"; otherwise the decoded user is attached and the
handler runs. -/
def authenticateToken (header : Option String)
    (verifyTok : String → Except JwtError JwtClaims) : AuthOutcome :=
  match extractToken header with
  | none => .reject { status := 403, body := .err "Token is required" }
  | some t =>
    if t = "" then .reject { status := 403, body := .err "Token is required" }
    else
      match verifyTok t with
      | .error _ => .reject { status := 403, body := .err "Invalid token" }
      | .ok user => .proceed user

/-! ## Mongo case-insensitive regex matching (`$regex` with `$options: 'i'`)

The search route passes the raw query-parameter string to MongoDB as a
PCRE pattern with the `i` option.  We model the literal-and-dot fragment
of that language: each pattern character other than `.` matches itself up
to ASCII case, `.` matches any single character, and the pattern may match
starting at any position of the field value (Mongo regexes are not
anchored). -/

/-- One compiled pattern character: the wildcard `.` or a literal. -/
inductive PatChar where
  | dot
  | lit (c : Char)
  deriving DecidableEq, Repr

/-- Compiling a pattern: `.` becomes the wildcard, everything else is a
literal. -/
def parsePat (p : List Char) : List PatChar :=
  p.map (fun c => if c = '.' then PatChar.dot else PatChar.lit c)

/-- Does a pattern character match a subject character (case-insensitive)? -/
def charMatch : PatChar → Char → Bool
  | .dot, _ => true
  | .lit c, d => c.toLower = d.toLower

/-- Does the whole pattern match a prefix of the subject? -/
def matchHere : List PatChar → List Char → Bool
  | [], _ => true
  | _ :: _, [] => false
  | p :: ps, c :: cs => charMatch p c && matchHere ps cs

/-- Does the pattern match starting at some position of the subject? -/
def regexFind : List PatChar → List Char → Bool
  | p, [] => matchHere p []
  | p, c :: cs => matchHere p (c :: cs) || regexFind p cs

/-- `$regex: pat, $options: 'i'` applied to the string `s`. -/
def regexMatchI (pat s : String) : Bool :=
  regexFind (parsePat pat.data) s.data

/-- Case-insensitive prefix comparison of plain character lists. -/
def prefixCI : List Char → List Char → Bool
  | [], _ => true
  | _ :: _, [] => false
  | p :: ps, c :: cs => (p.toLower = c.toLower) && prefixCI ps cs

/-- Case-insensitive substring search on plain character lists. -/
def substrCI : List Char → List Char → Bool
  | p, [] => prefixCI p []
  | p, c :: cs => prefixCI p (c :: cs) || substrCI p cs

/-- Modelled from the spec: `pat` is case-insensitively a substring of `s`.
This is the spec's reading of the search filter, to be compared with the
regex semantics the code actually requests from MongoDB. -/
def isSubstringCI (pat s : String) : Bool :=
  substrCI pat.data s.data

/-- The PCRE metacharacters; a pattern avoiding all of them is a literal
pattern (braces are also metacharacters in counted repetitions, but never
on their own, and are left out of the model). -/
def regexMetachars : List Char :=
  ['.', '*', '+', '?', '(', ')', '[', ']', '\\', '|', '^', '$']

/-- A pattern string free of regex metacharacters. -/
def noMetachar (s : String) : Bool :=
  s.data.all (fun c => !(regexMetachars.contains c))

/-! ## Query builder and search route (src/app.js lines 124-151) -/

/-- The dynamically built Mongo filter object `query`: an optional
`$regex`-`i` constraint per field. -/
structure SearchQuery where
  name : Option String
  cuisine : Option String
  deriving DecidableEq, Repr

/-- `const query = {}; if (name) ...; if (cuisine) ...` — a query-string
parameter adds its constraint only when truthy, so an absent parameter and
an empty-string parameter both add nothing. -/
def mkQuery (name cuisine : Option String) : SearchQuery :=
  { name :=
      match name with
      | some s => if s = "" then none else some s
      | none => none
    cuisine :=
      match cuisine with
      | some s => if s = "" then none else some s
      | none => none }

/-- One field of a Mongo filter: no constraint always matches; a `$regex`
constraint requires the document field to exist and the pattern to match
it. -/
def fieldMatches (pat : Option String) (v : Option String) : Bool :=
  match pat with
  | none => true
  | some p =>
    match v with
    | none => false
    | some s => regexMatchI p s

/-- Does a stored restaurant satisfy the built filter? -/
def matchesQuery (q : SearchQuery) (r : Restaurant) : Bool :=
  fieldMatches q.name r.name && fieldMatches q.cuisine r.cuisine

/-- `Restaurant.find(query)` over the modelled collection. -/
def searchRestaurants (q : SearchQuery) (db : List Restaurant) : List Restaurant :=
  db.filter (matchesQuery q)

/-- The `GET /restaurants/search` handler body (after the middleware):
build the filter from the query parameters, run the find, answer 404 when
nothing matched and 200 with the matches otherwise. -/
def searchHandler (name cuisine : Option String) (db : List Restaurant) : ApiResp :=
  let restaurants := searchRestaurants (mkQuery name cuisine) db
  if restaurants.length = 0 then
    { status := 404, body := .msg "No restaurants found matching the search criteria" }
  else
    { status := 200, body := .restaurants restaurants }

/-! ## Signup and login routes (src/app.js lines 71-115) -/

/-- `Users.findOne({ email })` over the modelled collection. -/
def findUserByEmail (db : List User) (email : String) : Option User :=
  db.find? (fun u => u.email == email)

/-- The `POST /signup` handler on its storage success path: reject a
duplicate email with 400 without touching the store; otherwise persist one
new user whose `password` field is the bcrypt hash `hashed` (bcrypt is
salted and randomized, so the hash is a parameter, not a function of the
plaintext) and whose `_id` is the store-assigned `newId`. -/
def signup (db : List User) (email hashed : String) (newId : Nat) : ApiResp × List User :=
  match findUserByEmail db email with
  | some _ => ({ status := 400, body := .err "Email already in use" }, db)
  | none =>
    ({ status := 201, body := .msg "User successfully registered" },
     db ++ [{ id := newId, email := email, password := hashed }])

/-- The `POST /login` handler: look the user up by email, answer the same
401 body whether the user is absent or the bcrypt comparison `compare`
fails, and on success answer 200 with a token signed over
`{userId: user._id, email: user.email}` expiring in one hour. -/
def login (db : List User) (email password : String)
    (compare : String → String → Bool) (secret : String) (now : Nat) : ApiResp :=
  match findUserByEmail db email with
  | none => { status := 401, body := .err "Invalid email or password" }
  | some user =>
    if compare password user.password then
      { status := 200, body := .token (issue secret user.id user.email now) }
    else
      { status := 401, body := .err "Invalid email or password" }

/-! ## Restaurant update and delete routes (src/app.js lines 188-211) -/

/-- A `PUT /restaurants/:id` request body: each top-level schema path may
be present or absent in the JSON. -/
structure RestaurantBody where
  address : Option Address
  borough : Option String
  cuisine : Option String
  grades : Option (List Grade)
  name : Option String
  restaurant_id : Option String
  deriving DecidableEq, Repr

/-- Mongoose `findByIdAndUpdate(id, body)` casts an operator-free update
document to `$set`: every top-level path present in the body is
overwritten, every absent path keeps its stored value. -/
def applySet (b : RestaurantBody) (r : Restaurant) : Restaurant :=
  { id := r.id
    address := match b.address with | some a => some a | none => r.address
    borough := match b.borough with | some s => some s | none => r.borough
    cuisine := match b.cuisine with | some s => some s | none => r.cuisine
    grades := match b.grades with | some g => some g | none => r.grades
    name := match b.name with | some s => some s | none => r.name
    restaurant_id := match b.restaurant_id with | some s => some s | none => r.restaurant_id }

/-- `Restaurant.findById` over the modelled collection. -/
def findRestaurantById (db : List Restaurant) (id : Nat) : Option Restaurant :=
  db.find? (fun r => r.id == id)

/-- Replace the (first) document with the given `_id`. -/
def replaceFirst (db : List Restaurant) (id : Nat) (r : Restaurant) : List Restaurant :=
  match db with
  | [] => []
  | x :: xs => if x.id == id then r :: xs else x :: replaceFirst xs id r

/-- Remove the (first) document with the given `_id`. -/
def removeFirst (db : List Restaurant) (id : Nat) : List Restaurant :=
  match db with
  | [] => []
  | x :: xs => if x.id == id then xs else x :: removeFirst xs id

/-- The `PUT /restaurants/:id` handler:
`Restaurant.findByIdAndUpdate(req.params.id, req.body, { new: true })` —
404 when the id does not resolve, otherwise apply the `$set` update and
answer 200 with the updated (post-update, `new: true`) document. -/
def putRestaurant (id : Nat) (body : RestaurantBody) (db : List Restaurant) :
    ApiResp × List Restaurant :=
  match findRestaurantById db id with
  | none => ({ status := 404, body := .err "Restaurant not found" }, db)
  | some r =>
    ({ status := 200, body := .restaurant (applySet body r) },
     replaceFirst db id (applySet body r))

/-- The `DELETE /restaurants/:id` handler:
`Restaurant.findByIdAndDelete(req.params.id)` — 404 when the id does not
resolve, otherwise remove the document and answer 200. -/
def deleteRestaurant (id : Nat) (db : List Restaurant) : ApiResp × List Restaurant :=
  match findRestaurantById db id with
  | none => ({ status := 404, body := .err "Restaurant not found" }, db)
  | some _ =>
    ({ status := 200, body := .msg "Restaurant deleted successfully" }, removeFirst db id)

/-! ## Error propagation through the handlers (claim C9)

Each awaited operation (a store round-trip or a bcrypt call) may reject;
its outcome is an explicit `Except` parameter here.  A rejection inside a
handler's `try` block reaches the `catch` and becomes a JSON response; a
rejection from an `await` outside any `try` (and every rejection in the
login handler, which has no `try` at all) escapes the handler as an
unhandled promise rejection. -/

/-- A rejected awaited operation (storage failure, bcrypt failure, ...),
carrying its `err.message`. -/
structure OpError where
  message : String
  deriving DecidableEq, Repr

/-- What a handler invocation produces: a response written through `res`,
or an error that escaped the handler uncaught. -/
inductive HandlerOutcome where
  | resp (r : ApiResp)
  | uncaught (e : OpError)
  deriving DecidableEq, Repr

/-- Did the handler turn every failure into a response? -/
def isCaught : HandlerOutcome → Bool
  | .resp _ => true
  | .uncaught _ => false

/-- `POST /signup` with explicit operation outcomes.  In the source the
`await Users.findOne` (line 75) and `await bcrypt.hash` (line 81) sit
before the `try` block; only `newUser.save()` (line 87) is inside it. -/
def signupOps (findRes : Except OpError (Option User))
    (hashRes : Except OpError String)
    (saveRes : Except OpError Unit) : HandlerOutcome :=
  match findRes with
  | .error e => .uncaught e
  | .ok (some _) => .resp { status := 400, body := .err "Email already in use" }
  | .ok none =>
    match hashRes with
    | .error e => .uncaught e
    | .ok _ =>
      match saveRes with
      | .error e => .resp { status := 500, body := .errD "Error registering user" e.message }
      | .ok _ => .resp { status := 201, body := .msg "User successfully registered" }

/-- `POST /login` with explicit operation outcomes.  The handler has no
`try`/`catch`, so both the `Users.findOne` and the `bcrypt.compare`
rejections escape. -/
def loginOps (findRes : Except OpError (Option User))
    (cmpRes : Except OpError Bool) (secret : String) (now : Nat) : HandlerOutcome :=
  match findRes with
  | .error e => .uncaught e
  | .ok none => .resp { status := 401, body := .err "Invalid email or password" }
  | .ok (some user) =>
    match cmpRes with
    | .error e => .uncaught e
    | .ok false => .resp { status := 401, body := .err "Invalid email or password" }
    | .ok true => .resp { status := 200, body := .token (issue secret user.id user.email now) }

/-- `GET /restaurants/search` with an explicit find outcome: the whole
body is inside `try`, and a failure answers 500. -/
def searchOps (findRes : Except OpError (List Restaurant)) : HandlerOutcome :=
  match findRes with
  | .error e => .resp { status := 500, body := .errD "Error searching for restaurants" e.message }
  | .ok restaurants =>
    if restaurants.length = 0 then
      .resp { status := 404, body := .msg "No restaurants found matching the search criteria" }
    else
      .resp { status := 200, body := .restaurants restaurants }

/-- `POST /restaurants`: the save is inside `try`; a failure answers 400
with the error message (Mongoose validation errors land here). -/
def createOps (saveRes : Except OpError Restaurant) : HandlerOutcome :=
  match saveRes with
  | .error e => .resp { status := 400, body := .err e.message }
  | .ok saved => .resp { status := 201, body := .restaurant saved }

/-- `GET /restaurants`: the find is inside `try`. -/
def getAllOps (findRes : Except OpError (List Restaurant)) : HandlerOutcome :=
  match findRes with
  | .error e => .resp { status := 500, body := .err e.message }
  | .ok restaurants => .resp { status := 200, body := .restaurants restaurants }

/-- `GET /restaurants/:id`: the findById is inside `try`. -/
def getOneOps (findRes : Except OpError (Option Restaurant)) : HandlerOutcome :=
  match findRes with
  | .error e => .resp { status := 500, body := .err e.message }
  | .ok none => .resp { status := 404, body := .err "Restaurant not found" }
  | .ok (some r) => .resp { status := 200, body := .restaurant r }

/-- `PUT /restaurants/:id`: the findByIdAndUpdate is inside `try`. -/
def putOps (updRes : Except OpError (Option Restaurant)) : HandlerOutcome :=
  match updRes with
  | .error e => .resp { status := 500, body := .err e.message }
  | .ok none => .resp { status := 404, body := .err "Restaurant not found" }
  | .ok (some r) => .resp { status := 200, body := .restaurant r }

/-- `DELETE /restaurants/:id`: the findByIdAndDelete is inside `try`. -/
def deleteOps (delRes : Except OpError (Option Restaurant)) : HandlerOutcome :=
  match delRes with
  | .error e => .resp { status := 500, body := .err e.message }
  | .ok none => .resp { status := 404, body := .err "Restaurant not found" }
  | .ok (some _) => .resp { status := 200, body := .msg "Restaurant deleted successfully" }

/-- `DELETE /users/me`: the findByIdAndDelete is inside `try`. -/
def deleteUserOps (delRes : Except OpError (Option User)) : HandlerOutcome :=
  match delRes with
  | .error e => .resp { status := 500, body := .errD "Error deleting user" e.message }
  | .ok none => .resp { status := 404, body := .err "User not found" }
  | .ok (some _) => .resp { status := 200, body := .msg "User deleted successfully" }

/-! ## Auxiliary definitions for the statements -/

/-- How many stored users carry the given email. -/
def countEmail (db : List User) (email : String) : Nat :=
  db.countP (fun u => u.email == email)

/-- Modelled from the spec: a supplied search parameter "must
case-insensitively substring-match the corresponding stored field"; an
unsupplied parameter is unconstrained.  This is the spec's reading of one
filter field, to be compared with `fieldMatches` (the regex semantics the
code requests from MongoDB). -/
def claimFieldMatches (pat v : Option String) : Bool :=
  match pat with
  | none => true
  | some p =>
    match v with
    | none => false
    | some s => isSubstringCI p s

/-- A sample stored restaurant named "abc". -/
def rAbc : Restaurant :=
  { id := 1, address := none, borough := none, cuisine := none, grades := none,
    name := some "abc", restaurant_id := none }

/-- A sample stored restaurant with cuisine "Italian". -/
def rItalian : Restaurant :=
  { id := 2, address := none, borough := none, cuisine := some "Italian", grades := none,
    name := some "Trattoria", restaurant_id := none }

/-- A sample stored restaurant named "A" with cuisine "Italian". -/
def rNameA : Restaurant :=
  { id := 1, address := none, borough := none, cuisine := some "Italian", grades := none,
    name := some "A", restaurant_id := none }

/-- A sample update body carrying only a `name`. -/
def bodyNameOnly : RestaurantBody :=
  { address := none, borough := none, cuisine := none, grades := none,
    name := some "B", restaurant_id := none }

/-! ## Helper lemmas -/

/-- On a dot-free pattern the compiled matcher is case-insensitive prefix
comparison. -/
theorem matchHere_parsePat (p t : List Char) (hp : ∀ c ∈ p, c ≠ '.') :
    matchHere (parsePat p) t = prefixCI p t := by
  induction p generalizing t with
  | nil => cases t <;> rfl
  | cons c cs ih =>
    have hc : c ≠ '.' := hp c (List.mem_cons_self c cs)
    have hcs : ∀ d ∈ cs, d ≠ '.' := fun d hd => hp d (List.mem_cons_of_mem c hd)
    cases t with
    | nil => simp [parsePat, matchHere, prefixCI, hc]
    | cons d ds =>
      have hrec := ih ds hcs
      simp only [parsePat] at hrec
      simp [parsePat, matchHere, prefixCI, charMatch, hc, hrec]

/-- On a dot-free pattern the unanchored matcher is case-insensitive
substring search. -/
theorem regexFind_parsePat (p t : List Char) (hp : ∀ c ∈ p, c ≠ '.') :
    regexFind (parsePat p) t = substrCI p t := by
  induction t with
  | nil => simp [regexFind, substrCI, matchHere_parsePat p [] hp]
  | cons c cs ih => simp [regexFind, substrCI, matchHere_parsePat p (c :: cs) hp, ih]

/-- On a metacharacter-free pattern the Mongo `$regex`-`i` semantics
coincide with case-insensitive substring containment. -/
theorem regexMatchI_eq_substring (pat s : String) (h : noMetachar pat = true) :
    regexMatchI pat s = isSubstringCI pat s := by
  have hp : ∀ c ∈ pat.data, c ≠ '.' := by
    intro c hc hdot
    have hall := List.all_eq_true.mp h c hc
    subst hdot
    exact absurd hall (by decide)
  exact regexFind_parsePat pat.data s.data hp

/-- A filter field whose pattern is metacharacter-free behaves as the
spec's substring reading. -/
theorem fieldMatches_eq_claim (pat v : Option String)
    (h : ∀ s, pat = some s → noMetachar s = true) :
    fieldMatches pat v = claimFieldMatches pat v := by
  cases pat with
  | none => rfl
  | some p =>
    cases v with
    | none => rfl
    | some s =>
      simp only [fieldMatches, claimFieldMatches]
      exact regexMatchI_eq_substring p s (h p rfl)

/-- Appending one element to a collection in which a lookup fails makes
that element the lookup result (when it matches). -/
theorem find?_append_singleton {α : Type} (p : α → Bool) (l : List α) (a : α)
    (hl : l.find? p = none) (ha : p a = true) : (l ++ [a]).find? p = some a := by
  induction l with
  | nil => simp [List.find?, ha]
  | cons x xs ih =>
    cases hpx : p x with
    | true =>
      rw [List.find?_cons_of_pos xs hpx] at hl
      cases hl
    | false =>
      rw [List.find?_cons_of_neg xs (by simp [hpx])] at hl
      rw [List.cons_append, List.find?_cons_of_neg _ (by simp [hpx])]
      exact ih hl

/-- A failing lookup means no element satisfies the predicate, so the
count is zero. -/
theorem countP_eq_zero_of_find?_eq_none {α : Type} (p : α → Bool) (l : List α)
    (h : l.find? p = none) : l.countP p = 0 :=
  List.countP_eq_zero.mpr (List.find?_eq_none.mp h)

/-- After removing the document with a given id from a collection with
pairwise-distinct ids, no document with that id remains. -/
theorem find?_removeFirst_eq_none (db : List Restaurant) (id : Nat)
    (hnd : (db.map (fun x => x.id)).Nodup) :
    findRestaurantById (removeFirst db id) id = none := by
  induction db with
  | nil => rfl
  | cons x xs ih =>
    rw [List.map_cons, List.nodup_cons] at hnd
    cases hx : x.id == id with
    | true =>
      have hxid : x.id = id := by simpa using hx
      rw [removeFirst, if_pos hx]
      apply List.find?_eq_none.mpr
      intro y hy hpy
      have hyid : y.id = id := by simpa using hpy
      exact hnd.1 (hxid ▸ hyid ▸ List.mem_map_of_mem (fun r => r.id) hy)
    | false =>
      rw [removeFirst, if_neg (by simp [hx])]
      rw [findRestaurantById, List.find?_cons_of_neg _ (by simp [hx])]
      exact ih hnd.2

/-! ## Claim theorems -/

/-- Claim C5: a token produced by `issue` carries an expiry exactly one
hour (3600 s) after its issued-at time; verifying it before the expiry
succeeds with the original `userId` and `email`; verifying it after the
expiry fails with `Expired`. -/
theorem token_issue_verify_roundtrip (secret : String) (userId : Nat) (email : String)
    (t tv : Nat) :
    (issue secret userId email t).iat = t ∧
    (issue secret userId email t).exp = t + 3600 ∧
    (tv < t + 3600 → verifyToken secret (issue secret userId email t) tv =
      .ok { userId := userId, email := email }) ∧
    (t + 3600 < tv → verifyToken secret (issue secret userId email t) tv =
      .error .expired) := by
  refine ⟨rfl, rfl, ?_, ?_⟩
  · intro h
    simp [verifyToken, issue, Nat.not_le.mpr h]
  · intro h
    simp [verifyToken, issue, Nat.le_of_lt h]

/-- Claim C5 witness: a concrete token issued at time 100 expires at 3700,
verifies at time 200 to its original claims, and is expired at time
4000. -/
theorem token_issue_verify_roundtrip_witness :
    (issue "s" 7 "a@b.c" 100).exp = 3700 ∧
    verifyToken "s" (issue "s" 7 "a@b.c" 100) 200 = .ok { userId := 7, email := "a@b.c" } ∧
    verifyToken "s" (issue "s" 7 "a@b.c" 100) 4000 = .error .expired := by
  have h1 := token_issue_verify_roundtrip "s" 7 "a@b.c" 100 200
  have h2 := token_issue_verify_roundtrip "s" 7 "a@b.c" 100 4000
  exact ⟨h1.2.1, h1.2.2.1 (by decide), h2.2.2.2 (by decide)⟩

/-- Claim C1 counterexample: the middleware never checks the `Bearer`
scheme word.  An `Authorization` header using the `Basic` scheme — which
per the claim should be rejected with 403 "Token is required" — has its
second segment verified, and on success the handler runs. -/
theorem auth_scheme_not_checked_counterexample :
    authenticateToken (some "Basic sometoken")
        (fun _ => .ok { userId := 1, email := "a@b.c" }) =
      .proceed { userId := 1, email := "a@b.c" } ∧
    authenticateToken (some "Basic sometoken")
        (fun _ => .ok { userId := 1, email := "a@b.c" }) ≠
      .reject { status := 403, body := .err "Token is required" } := by
  exact ⟨rfl, by decide⟩

/-- Claim C1 (amended): the middleware takes the second space-separated
segment of the `Authorization` header as the token, never checking the
scheme word.  If the header is absent or has no nonempty second segment it
rejects with 403 "Token is required" without running the handler; if the
extracted segment fails verification it rejects with 403 "Invalid token";
only on successful verification does the handler run with the claims
attached. -/
theorem auth_middleware_behaviour (header : Option String)
    (verifyTok : String → Except JwtError JwtClaims) :
    ((extractToken header = none ∨ extractToken header = some "") →
      authenticateToken header verifyTok =
        .reject { status := 403, body := .err "Token is required" }) ∧
    (∀ t, extractToken header = some t → t ≠ "" →
      (∀ e, verifyTok t = .error e →
        authenticateToken header verifyTok =
          .reject { status := 403, body := .err "Invalid token" }) ∧
      (∀ c, verifyTok t = .ok c →
        authenticateToken header verifyTok = .proceed c)) := by
  constructor
  · rintro (h | h) <;> simp [authenticateToken, h]
  · intro t ht hne
    constructor
    · intro e he
      simp [authenticateToken, ht, hne, he]
    · intro c hc
      simp [authenticateToken, ht, hne, hc]

/-- Claim C1 (amended) witness: a well-formed `Bearer` header whose token
fails verification is rejected with "Invalid token", and a missing header
is rejected with "Token is required". -/
theorem auth_middleware_behaviour_witness :
    authenticateToken (some "Bearer tok") (fun _ => .error .malformed) =
      .reject { status := 403, body := .err "Invalid token" } ∧
    authenticateToken none (fun _ => .error .malformed) =
      .reject { status := 403, body := .err "Token is required" } := by
  constructor
  · exact ((auth_middleware_behaviour (some "Bearer tok")
      (fun _ => .error .malformed)).2 "tok" rfl (by decide)).1 .malformed rfl
  · exact (auth_middleware_behaviour none (fun _ => .error .malformed)).1 (Or.inl rfl)

/-- Claim C2: the login response when no user has the given email is the
same 401 response with the same generic body as when the user exists but
the password comparison fails — even across different stores, requests
and configurations — and a successful comparison yields 200 with a token
issued over that user's `_id` and email. -/
theorem login_indistinguishable_and_success (db db2 : List User)
    (email email2 password password2 : String)
    (compare compare2 : String → String → Bool) (secret secret2 : String)
    (now now2 : Nat) :
    (findUserByEmail db email = none →
      login db email password compare secret now =
        { status := 401, body := .err "Invalid email or password" }) ∧
    (∀ u, findUserByEmail db email = some u → compare password u.password = false →
      login db email password compare secret now =
        { status := 401, body := .err "Invalid email or password" }) ∧
    (findUserByEmail db email = none →
      (∀ u, findUserByEmail db2 email2 = some u → compare2 password2 u.password = false →
        login db email password compare secret now =
          login db2 email2 password2 compare2 secret2 now2)) ∧
    (∀ u, findUserByEmail db email = some u → compare password u.password = true →
      login db email password compare secret now =
        { status := 200, body := .token (issue secret u.id u.email now) }) := by
  refine ⟨?_, ?_, ?_, ?_⟩
  · intro h
    simp [login, h]
  · intro u hu hc
    simp [login, hu, hc]
  · intro h u hu hc
    simp [login, h, hu, hc]
  · intro u hu hc
    simp [login, hu, hc]

/-- Claim C2 witness: with a concrete store holding one user, the
missing-user response and the wrong-password response are the same
observable 401, and the right password yields 200 with that user's
token. -/
theorem login_indistinguishable_witness :
    login [] "a@b" "pw" (fun _ _ => false) "s" 0 =
      login [{ id := 1, email := "a@b", password := "h" }] "a@b" "pw"
        (fun _ _ => false) "s" 5 ∧
    login [{ id := 1, email := "a@b", password := "h" }] "a@b" "pw"
        (fun _ _ => true) "s" 5 =
      { status := 200, body := .token (issue "s" 1 "a@b" 5) } := by
  constructor
  · exact (login_indistinguishable_and_success []
      [{ id := 1, email := "a@b", password := "h" }] "a@b" "a@b" "pw" "pw"
      (fun _ _ => false) (fun _ _ => false) "s" "s" 0 5).2.2.1 rfl
      { id := 1, email := "a@b", password := "h" } rfl rfl
  · exact (login_indistinguishable_and_success
      [{ id := 1, email := "a@b", password := "h" }] [] "a@b" "a@b" "pw" "pw"
      (fun _ _ => true) (fun _ _ => true) "s" "s" 5 5).2.2.2
      { id := 1, email := "a@b", password := "h" } rfl rfl

/-- Claim C4: signing up an email that already has a stored user answers
400 "Email already in use" and leaves the store unchanged; a fresh email
answers 201 and appends exactly one user carrying the hash, so signing up
the same email twice leaves exactly one stored user with that email. -/
theorem signup_duplicate_detection (db : List User) (email h1 h2 : String)
    (id1 id2 : Nat) :
    ((findUserByEmail db email).isSome = true →
      signup db email h1 id1 =
        ({ status := 400, body := .err "Email already in use" }, db)) ∧
    (findUserByEmail db email = none →
      (signup db email h1 id1).1.status = 201 ∧
      (signup db email h1 id1).2 = db ++ [{ id := id1, email := email, password := h1 }] ∧
      signup (signup db email h1 id1).2 email h2 id2 =
        ({ status := 400, body := .err "Email already in use" },
         (signup db email h1 id1).2) ∧
      countEmail (signup (signup db email h1 id1).2 email h2 id2).2 email = 1) := by
  constructor
  · intro h
    obtain ⟨u, hu⟩ := Option.isSome_iff_exists.mp h
    simp [signup, hu]
  · intro h
    have hstep : (signup db email h1 id1).2 =
        db ++ [{ id := id1, email := email, password := h1 }] := by
      simp [signup, h]
    have hfind2 : findUserByEmail (db ++ [{ id := id1, email := email, password := h1 }])
        email = some { id := id1, email := email, password := h1 } :=
      find?_append_singleton _ db _ h (by simp)
    refine ⟨by simp [signup, h], hstep, ?_, ?_⟩
    · rw [hstep]
      simp [signup, hfind2]
    · rw [hstep]
      have h2eq : (signup (db ++ [{ id := id1, email := email, password := h1 }])
          email h2 id2).2 = db ++ [{ id := id1, email := email, password := h1 }] := by
        simp [signup, hfind2]
      rw [h2eq, countEmail, List.countP_append,
        countP_eq_zero_of_find?_eq_none _ db h]
      simp [List.countP_cons]

/-- Claim C4 witness: starting from an empty store, the first signup of
"a@b" answers 201, the second answers 400 without changing the store, and
exactly one stored user carries that email. -/
theorem signup_duplicate_detection_witness :
    (signup [] "a@b" "hash1" 1).1.status = 201 ∧
    signup (signup [] "a@b" "hash1" 1).2 "a@b" "hash2" 2 =
      ({ status := 400, body := .err "Email already in use" },
       [{ id := 1, email := "a@b", password := "hash1" }]) ∧
    countEmail (signup (signup [] "a@b" "hash1" 1).2 "a@b" "hash2" 2).2 "a@b" = 1 := by
  have h := (signup_duplicate_detection [] "a@b" "hash1" "hash2" 1 2).2 rfl
  exact ⟨h.1, h.2.2.1, h.2.2.2⟩

/-- Claim C3 counterexample: the search filter is a case-insensitive
REGEX match, not a substring match.  The parameter "a.c" is not a
substring of the stored name "abc", yet the stored restaurant is in the
result set, because `.` is a regex wildcard. -/
theorem search_regex_not_substring_counterexample :
    searchRestaurants (mkQuery (some "a.c") none) [rAbc] = [rAbc] ∧
    rAbc.name = some "abc" ∧
    isSubstringCI "a.c" "abc" = false := by
  refine ⟨by decide, rfl, by decide⟩

/-- Claim C3 (amended): for supplied search parameters free of regex
metacharacters the original claim holds — a stored restaurant is in the
result set exactly when each supplied (nonempty) parameter is
case-insensitively a substring of the corresponding existing stored
field, an unsupplied parameter constrains nothing, and with both absent
every stored restaurant is returned. -/
theorem search_substring_semantics (np cp : Option String) (db : List Restaurant)
    (r : Restaurant)
    (hn : ∀ s, np = some s → noMetachar s = true)
    (hc : ∀ s, cp = some s → noMetachar s = true) :
    (r ∈ searchRestaurants (mkQuery np cp) db ↔
      (r ∈ db ∧ claimFieldMatches (mkQuery np cp).name r.name = true ∧
        claimFieldMatches (mkQuery np cp).cuisine r.cuisine = true)) ∧
    searchRestaurants (mkQuery none none) db = db := by
  have hn' : ∀ s, (mkQuery np cp).name = some s → noMetachar s = true := by
    intro s hs
    cases np with
    | none => simp [mkQuery] at hs
    | some s0 =>
      by_cases h0 : s0 = "" <;> simp [mkQuery, h0] at hs
      exact hs ▸ hn s0 rfl
  have hc' : ∀ s, (mkQuery np cp).cuisine = some s → noMetachar s = true := by
    intro s hs
    cases cp with
    | none => simp [mkQuery] at hs
    | some s0 =>
      by_cases h0 : s0 = "" <;> simp [mkQuery, h0] at hs
      exact hs ▸ hc s0 rfl
  constructor
  · rw [searchRestaurants, List.mem_filter, matchesQuery,
      fieldMatches_eq_claim _ _ hn', fieldMatches_eq_claim _ _ hc',
      Bool.and_eq_true]
  · rw [searchRestaurants]
    apply List.filter_eq_self.mpr
    intro a _
    rfl

/-- Claim C3 (amended) witness: the parameter cuisine="ITALIAN" is free
of metacharacters and matches the stored record whose cuisine is
"Italian" (case-insensitive substring). -/
theorem search_substring_semantics_witness :
    rItalian ∈ searchRestaurants (mkQuery none (some "ITALIAN")) [rItalian] ∧
    noMetachar "ITALIAN" = true := by
  have hc : ∀ s, (some "ITALIAN" : Option String) = some s → noMetachar s = true := by
    intro s hs
    injection hs with hs'
    subst hs'
    decide
  refine ⟨?_, by decide⟩
  exact (search_substring_semantics none (some "ITALIAN") [rItalian] rItalian
    (fun s hs => by cases hs) hc).1.mpr ⟨by decide, by decide, by decide⟩

/-- Claim C7: a search whose result set is empty answers 404, and a
search whose result set is non-empty answers 200 with the matching
restaurants, for every combination of query parameters. -/
theorem search_empty_404 (np cp : Option String) (db : List Restaurant) :
    (searchRestaurants (mkQuery np cp) db = [] →
      searchHandler np cp db =
        { status := 404, body := .msg "No restaurants found matching the search criteria" }) ∧
    (searchRestaurants (mkQuery np cp) db ≠ [] →
      searchHandler np cp db =
        { status := 200, body := .restaurants (searchRestaurants (mkQuery np cp) db) }) := by
  constructor
  · intro h
    simp [searchHandler, h]
  · intro h
    simp [searchHandler, List.length_eq_zero, h]

/-- Claim C7 witness: the no-parameter search of an empty store answers
404, and of a one-document store answers 200 with that document. -/
theorem search_empty_404_witness :
    searchHandler none none [] =
      { status := 404, body := .msg "No restaurants found matching the search criteria" } ∧
    searchHandler none none [rAbc] =
      { status := 200, body := .restaurants [rAbc] } := by
  constructor
  · exact (search_empty_404 none none []).1 rfl
  · exact (search_empty_404 none none [rAbc]).2 (by decide)

/-- Claim C10: a query parameter supplied as the empty string is falsy in
the handler's `if (name)` / `if (cuisine)` guards, so it adds no filter
constraint: the built query, and the whole search, behave exactly as if
the parameter were absent, and two empty parameters return the full
listing. -/
theorem empty_param_ignored (np cp : Option String) (db : List Restaurant) :
    mkQuery (some "") cp = mkQuery none cp ∧
    mkQuery np (some "") = mkQuery np none ∧
    searchHandler (some "") (some "") db = searchHandler none none db ∧
    searchRestaurants (mkQuery (some "") (some "")) db = db := by
  refine ⟨rfl, rfl, rfl, ?_⟩
  rw [searchRestaurants]
  apply List.filter_eq_self.mpr
  intro a _
  rfl

/-- Claim C6 counterexample: `findByIdAndUpdate` with an operator-free
body merges (`$set`) rather than replacing the whole document.  Updating
a restaurant whose cuisine is "Italian" with a body that carries only a
name keeps the old cuisine in the stored document, where the claim
demands that the omitted field not be retained. -/
theorem put_merges_counterexample :
    bodyNameOnly.cuisine = none ∧
    (putRestaurant 1 bodyNameOnly [rNameA]).1 =
      { status := 200,
        body := .restaurant ⟨1, none, none, some "Italian", none, some "B", none⟩ } ∧
    (putRestaurant 1 bodyNameOnly [rNameA]).2.map (fun r => r.cuisine) =
      [some "Italian"] := by
  refine ⟨rfl, by decide, by decide⟩

/-- Claim C6 (amended): update by identifier has `$set` (merge)
semantics: after a successful PUT every field present in the body is
overwritten and every omitted field is retained from the previous
document, the updated document is returned with status 200, and an
unresolved id answers 404 and stores nothing. -/
theorem put_set_semantics (id : Nat) (body : RestaurantBody) (db : List Restaurant) :
    (findRestaurantById db id = none →
      putRestaurant id body db =
        ({ status := 404, body := .err "Restaurant not found" }, db)) ∧
    (∀ r, findRestaurantById db id = some r →
      putRestaurant id body db =
        ({ status := 200, body := .restaurant (applySet body r) },
         replaceFirst db id (applySet body r)) ∧
      (body.cuisine = none → (applySet body r).cuisine = r.cuisine) ∧
      (∀ v, body.cuisine = some v → (applySet body r).cuisine = some v) ∧
      (body.name = none → (applySet body r).name = r.name) ∧
      (∀ v, body.name = some v → (applySet body r).name = some v) ∧
      (applySet body r).id = r.id) := by
  constructor
  · intro h
    simp [putRestaurant, h]
  · intro r hr
    refine ⟨by simp [putRestaurant, hr], ?_, ?_, ?_, ?_, rfl⟩
    · intro h
      simp [applySet, h]
    · intro v h
      simp [applySet, h]
    · intro h
      simp [applySet, h]
    · intro v h
      simp [applySet, h]

/-- Claim C6 (amended) witness: with a concrete store, a body carrying
only a name yields 200, overwrites the name, and retains the omitted
cuisine. -/
theorem put_set_semantics_witness :
    putRestaurant 1 bodyNameOnly [rNameA] =
      ({ status := 200, body := .restaurant (applySet bodyNameOnly rNameA) },
       replaceFirst [rNameA] 1 (applySet bodyNameOnly rNameA)) ∧
    (applySet bodyNameOnly rNameA).cuisine = rNameA.cuisine ∧
    (applySet bodyNameOnly rNameA).name = some "B" := by
  have h := (put_set_semantics 1 bodyNameOnly [rNameA]).2 rNameA rfl
  exact ⟨h.1, h.2.1 rfl, h.2.2.2.2.1 "B" rfl⟩

/-- Claim C8: deleting a restaurant by an identifier that does not
resolve answers 404 and leaves the store unchanged; after a successful
delete (ids being store-assigned and distinct), deleting the same
identifier again also answers 404 and changes nothing. -/
theorem delete_notfound_idempotent (id : Nat) (db : List Restaurant) :
    (findRestaurantById db id = none →
      deleteRestaurant id db = ({ status := 404, body := .err "Restaurant not found" }, db)) ∧
    (∀ r, findRestaurantById db id = some r → (db.map (fun x => x.id)).Nodup →
      (deleteRestaurant id db).1 =
        { status := 200, body := .msg "Restaurant deleted successfully" } ∧
      deleteRestaurant id (deleteRestaurant id db).2 =
        ({ status := 404, body := .err "Restaurant not found" },
         (deleteRestaurant id db).2)) := by
  constructor
  · intro h
    simp [deleteRestaurant, h]
  · intro r hr hnd
    have hsnd : (deleteRestaurant id db).2 = removeFirst db id := by
      simp [deleteRestaurant, hr]
    have hnone : findRestaurantById (removeFirst db id) id = none :=
      find?_removeFirst_eq_none db id hnd
    refine ⟨by simp [deleteRestaurant, hr], ?_⟩
    rw [hsnd]
    simp [deleteRestaurant, hnone]

/-- Claim C8 witness: deleting id 1 from a one-document store succeeds,
and deleting it again answers 404; deleting a never-present id answers
404 with the store unchanged. -/
theorem delete_notfound_idempotent_witness :
    deleteRestaurant 9 [rAbc] =
      ({ status := 404, body := .err "Restaurant not found" }, [rAbc]) ∧
    (deleteRestaurant 1 [rAbc]).1 =
      { status := 200, body := .msg "Restaurant deleted successfully" } ∧
    deleteRestaurant 1 (deleteRestaurant 1 [rAbc]).2 =
      ({ status := 404, body := .err "Restaurant not found" },
       (deleteRestaurant 1 [rAbc]).2) := by
  have h9 := (delete_notfound_idempotent 9 [rAbc]).1 rfl
  have h1 := (delete_notfound_idempotent 1 [rAbc]).2 rAbc rfl (by simp)
  exact ⟨h9, h1.1, h1.2⟩

/-- Claim C9 counterexample: a storage failure during the login user
lookup is not caught at the handler boundary — the login handler has no
try/catch — so the rejection escapes instead of becoming a JSON error
response. -/
theorem login_uncaught_counterexample :
    loginOps (.error { message := "db down" }) (.ok true) "s" 0 =
      .uncaught { message := "db down" } ∧
    isCaught (loginOps (.error { message := "db down" }) (.ok true) "s" 0) = false := by
  exact ⟨rfl, rfl⟩

/-- Claim C9 (amended): every error inside the restaurant route handlers
and the user self-delete handler is caught and converted to a JSON error
response, and so is a signup save failure; but a storage failure in the
signup duplicate-email lookup, a password-hashing failure in signup, and
any failure in the login handler (user lookup or password comparison)
escape the handler uncaught. -/
theorem handler_error_catching (e : OpError) (hashRes : Except OpError String)
    (saveRes : Except OpError Unit) (cmpRes : Except OpError Bool)
    (secret : String) (now : Nat) (u : User)
    (findRs : Except OpError (List Restaurant)) (saveR : Except OpError Restaurant)
    (findR1 updR delR : Except OpError (Option Restaurant))
    (delU : Except OpError (Option User)) :
    isCaught (searchOps findRs) = true ∧
    isCaught (createOps saveR) = true ∧
    isCaught (getAllOps findRs) = true ∧
    isCaught (getOneOps findR1) = true ∧
    isCaught (putOps updR) = true ∧
    isCaught (deleteOps delR) = true ∧
    isCaught (deleteUserOps delU) = true ∧
    signupOps (.ok none) (.ok "h") (.error e) =
      .resp { status := 500, body := .errD "Error registering user" e.message } ∧
    signupOps (.error e) hashRes saveRes = .uncaught e ∧
    signupOps (.ok none) (.error e) saveRes = .uncaught e ∧
    loginOps (.error e) cmpRes secret now = .uncaught e ∧
    loginOps (.ok (some u)) (.error e) secret now = .uncaught e := by
  refine ⟨?_, ?_, ?_, ?_, ?_, ?_, ?_, rfl, rfl, rfl, rfl, rfl⟩
  · rcases findRs with e1 | rs
    · rfl
    · by_cases h : rs.length = 0 <;> simp [searchOps, isCaught, h]
  · rcases saveR with e1 | r <;> rfl
  · rcases findRs with e1 | rs <;> rfl
  · rcases findR1 with e1 | r
    · rfl
    · rcases r with _ | r <;> rfl
  · rcases updR with e1 | r
    · rfl
    · rcases r with _ | r <;> rfl
  · rcases delR with e1 | r
    · rfl
    · rcases r with _ | r <;> rfl
  · rcases delU with e1 | r
    · rfl
    · rcases r with _ | r <;> rfl
